import Mathlib

/- Shallow embedding of the cloudflared component-test harness:
   the readiness/lifecycle polling and process-supervision logic of
   component-tests/util.py, cli.py, test_reconnect.py, test_termination.py
   and test_logging.py.  Machine-level effects (HTTP, the child process,
   the file system) are passed in explicitly as values describing what the
   environment returned; the control flow of each Python function is
   translated statement by statement. -/

/-- Response object of one HTTP GET: the status code and, for the /ready
endpoint, the readyConnections field of the JSON body (ignored for other
urls). -/
structure Resp where
  status_code : Nat
  readyConnections : Nat
deriving DecidableEq, Repr

/-- Outcome of a single session.get call: either the transport raised a
ConnectionError, or a response object came back. -/
inductive GetResult where
  | connError : GetResult
  | got : Resp → GetResult
deriving DecidableEq, Repr

/-- Embedding of util.send_request (one underlying GET, with the retry
decorator peeled off): a ConnectionError propagates as an exception, with
require_ok a non-200 status fails the assert, and otherwise the response is
returned when its status is 200 and None is returned when it is not. -/
def send_request (require_ok : Bool) (r : GetResult) : Except String (Option Resp) :=
  match r with
  | GetResult.connError => Except.error ("ConnectionError")
  | GetResult.got resp =>
      if require_ok = true ∧ resp.status_code ≠ 200 then
        Except.error ("assert failed: url returned non-200 resp")
      else
        Except.ok (if resp.status_code = 200 then some resp else none)

/-- Embedding of one attempt of util.inner_wait_tunnel_ready: request the
/ready metrics url with require_ok, read readyConnections from the body,
assert it is at least require_min_connections (a greater-or-equal
comparison), and when a tunnel url was supplied additionally require one
successful request through it.  The metrics response and the response seen
through the tunnel url are the explicit inputs. -/
def inner_wait_tunnel_ready_attempt (tunnel_url_given : Bool)
    (require_min_connections : Nat)
    (metrics_resp : GetResult) (tunnel_resp : GetResult) : Except String Unit :=
  match send_request true metrics_resp with
  | Except.error e => Except.error e
  | Except.ok none => Except.error ("NoneType object has no attribute json")
  | Except.ok (some resp) =>
      if require_min_connections ≤ resp.readyConnections then
        if tunnel_url_given then
          match send_request true tunnel_resp with
          | Except.error e => Except.error e
          | Except.ok _ => Except.ok ()
        else Except.ok ()
      else Except.error ("Ready endpoint returned too few connections")

/-- Embedding of one attempt of util.check_tunnel_not_connected: a
ConnectionError from the GET is caught (cloudflared might already have
terminated) and only logged; otherwise the status must be 503 and
readyConnections must equal 0. -/
def check_tunnel_not_connected_attempt (r : GetResult) : Except String Unit :=
  match r with
  | GetResult.connError => Except.ok ()
  | GetResult.got resp =>
      if resp.status_code = 503 then
        if resp.readyConnections = 0 then Except.ok ()
        else Except.error ("Expected all connections to be terminated")
      else Except.error ("Expect ready endpoint to return 503")

/-- Claim C1: an attempt of the readiness wait succeeds exactly when the
readiness endpoint answered with status 200 and a readyConnections count
that is greater than or equal to require_min_connections, and, when a
tunnel url is also given, one request through that url additionally came
back with status 200 in the same attempt. -/
theorem inner_wait_tunnel_ready_attempt_ok_iff
    (minc : Nat) (m t : GetResult) :
    (inner_wait_tunnel_ready_attempt false minc m t = Except.ok () ↔
       ∃ r : Resp, m = GetResult.got r ∧ r.status_code = 200 ∧
         minc ≤ r.readyConnections) ∧
    (inner_wait_tunnel_ready_attempt true minc m t = Except.ok () ↔
       ∃ r : Resp, m = GetResult.got r ∧ r.status_code = 200 ∧
         minc ≤ r.readyConnections ∧
         ∃ rt : Resp, t = GetResult.got rt ∧ rt.status_code = 200) := by
  cases m with
  | connError =>
      simp [inner_wait_tunnel_ready_attempt, send_request]
  | got r =>
      by_cases h200 : r.status_code = 200
      · by_cases hmin : minc ≤ r.readyConnections
        · cases t with
          | connError =>
              simp [inner_wait_tunnel_ready_attempt, send_request, h200, hmin]
          | got rt =>
              by_cases ht : rt.status_code = 200 <;>
                simp [inner_wait_tunnel_ready_attempt, send_request, h200, hmin, ht]
        · simp [inner_wait_tunnel_ready_attempt, send_request, h200, hmin]
      · simp [inner_wait_tunnel_ready_attempt, send_request, h200]

/-- Claim C3: a poll of check_tunnel_not_connected completes without raising
exactly when either the transport reported a connection error (accepted as
evidence of shutdown, so a poll after the process has fully exited
succeeds), or the endpoint responded with status 503 and readyConnections
equal to 0. -/
theorem check_tunnel_not_connected_attempt_ok_iff (r : GetResult) :
    check_tunnel_not_connected_attempt r = Except.ok () ↔
      (r = GetResult.connError ∨
        ∃ resp : Resp, r = GetResult.got resp ∧
          resp.status_code = 503 ∧ resp.readyConnections = 0) := by
  cases r with
  | connError => simp [check_tunnel_not_connected_attempt]
  | got resp =>
      by_cases h : resp.status_code = 503
      · by_cases h0 : resp.readyConnections = 0 <;>
          simp [check_tunnel_not_connected_attempt, h, h0]
      · simp [check_tunnel_not_connected_attempt, h]

/-- Action trace alphabet of the process supervisors: the graceful stop
signal, the forced kill, and the logging of captured output. -/
inductive SupAction where
  | terminate : SupAction
  | kill : SupAction
  | logStderr : SupAction
deriving DecidableEq, Repr

/-- Embedding of the finally block of util.run_cloudflared_background: when
a child process was spawned it is sent terminate, and when capture_output
is set its stderr is logged. -/
def run_cloudflared_background_cleanup (started : Bool) (capture_output : Bool) :
    List SupAction :=
  if started then
    SupAction.terminate ::
      (if capture_output then [SupAction.logStderr] else [])
  else []

/-- Default attempts argument of cli.wait_for_terminate. -/
def wait_for_terminate_attempts : Nat := 10

/-- Default poll_interval argument of cli.wait_for_terminate, in seconds. -/
def wait_for_terminate_poll_interval : Nat := 1

/-- Loop of cli.wait_for_terminate: poll the subprocess once per attempt,
returning true as soon as a poll reports it stopped and false when the
attempt budget runs out.  The environment is the function stopped giving
the outcome of the poll at each poll index. -/
def wait_for_terminate_go (stopped : Nat → Bool) : Nat → Nat → Bool
  | _, 0 => false
  | i, Nat.succ n => if stopped i then true else wait_for_terminate_go stopped (i + 1) n

/-- Embedding of cli.wait_for_terminate with its default attempt budget. -/
def wait_for_terminate (stopped : Nat → Bool) (attempts : Nat) : Bool :=
  wait_for_terminate_go stopped 0 attempts

/-- Embedding of cli.terminate_gracefully: send terminate, wait up to the
attempt budget, and only when the process still has not exited kill it and
log the captured output. -/
def terminate_gracefully (stopped : Nat → Bool) : List SupAction :=
  SupAction.terminate ::
    (if wait_for_terminate stopped wait_for_terminate_attempts then []
     else [SupAction.kill, SupAction.logStderr])

/-- Characterisation of the cli.wait_for_terminate loop: it returns true
exactly when some poll within the budget reports the process stopped. -/
theorem wait_for_terminate_go_eq_true_iff (stopped : Nat → Bool) :
    ∀ (n i : Nat), wait_for_terminate_go stopped i n = true ↔
      ∃ j, j < n ∧ stopped (i + j) = true := by
  intro n
  induction n with
  | zero => intro i; simp [wait_for_terminate_go]
  | succ n ih =>
      intro i
      by_cases h : stopped i = true
      · simp only [wait_for_terminate_go, h, if_true]
        constructor
        · intro _
          exact ⟨0, Nat.succ_pos n, by simpa using h⟩
        · intro _; trivial
      · simp only [wait_for_terminate_go, h, if_false, Bool.false_eq_true, ih]
        constructor
        · rintro ⟨j, hj, hs⟩
          refine ⟨j + 1, by omega, ?_⟩
          have harith : i + (j + 1) = i + 1 + j := by omega
          rw [harith]; exact hs
        · rintro ⟨j, hj, hs⟩
          cases j with
          | zero => exact absurd (by simpa using hs) h
          | succ k =>
              refine ⟨k, by omega, ?_⟩
              have harith : i + 1 + k = i + (k + 1) := by omega
              rw [harith]; exact hs

/-- Claim C2 counterexample: with output capture enabled, the background
supervisor scope exit of util.run_cloudflared_background logs the captured
stderr although no forced kill ever occurs in its trace, refuting both the
bounded-wait-then-kill escalation and stderr being logged only on a forced
kill. -/
theorem run_cloudflared_background_cleanup_refutes_claim :
    run_cloudflared_background_cleanup true true
        = [SupAction.terminate, SupAction.logStderr] ∧
      SupAction.logStderr ∈ run_cloudflared_background_cleanup true true ∧
      SupAction.kill ∉ run_cloudflared_background_cleanup true true := by decide

/-- Claim C2 (amended): on scope exit util.run_cloudflared_background only
sends the graceful terminate signal and logs the captured stderr exactly
when output capture is enabled, never escalating to a kill; the
bounded-wait escalation is implemented in cli.terminate_gracefully, whose
trace starts with terminate, kills exactly when no poll within the
10-attempt budget saw the process exit, and logs the captured output
exactly on that forced kill. -/
theorem background_and_cli_termination_policy :
    (∀ co : Bool,
        (run_cloudflared_background_cleanup true co).head? = some SupAction.terminate ∧
        SupAction.kill ∉ run_cloudflared_background_cleanup true co ∧
        (SupAction.logStderr ∈ run_cloudflared_background_cleanup true co ↔ co = true)) ∧
    (∀ stopped : Nat → Bool,
        (terminate_gracefully stopped).head? = some SupAction.terminate ∧
        (SupAction.kill ∈ terminate_gracefully stopped ↔
          ¬ ∃ j, j < wait_for_terminate_attempts ∧ stopped j = true) ∧
        (SupAction.logStderr ∈ terminate_gracefully stopped ↔
          SupAction.kill ∈ terminate_gracefully stopped)) := by
  constructor
  · intro co; cases co <;> decide
  · intro stopped
    have hiff := wait_for_terminate_go_eq_true_iff stopped wait_for_terminate_attempts 0
    simp only [Nat.zero_add] at hiff
    by_cases h : wait_for_terminate stopped wait_for_terminate_attempts = true
    · have hex := hiff.mp h
      simp [terminate_gracefully, h, hex]
    · have hnex : ¬ ∃ j, j < wait_for_terminate_attempts ∧ stopped j = true := by
        intro hc
        exact h (hiff.mpr hc)
      simp [terminate_gracefully, h, hnex]

/-- Parameter max_runs of the flaky decorator on TestReconnect. -/
def test_reconnect_flaky_max_runs : Nat := 3

/-- Parameter min_passes of the flaky decorator on TestReconnect. -/
def test_reconnect_flaky_min_passes : Nat := 1

/-- Modelled semantics of the external flaky test decorator: a scenario
annotated with flaky(max_runs, min_passes) is run up to max_runs times and
passes as a whole when at least min_passes of those runs pass. -/
def flaky_passes (max_runs min_passes : Nat) (outcomes : List Bool) : Bool :=
  decide (min_passes ≤ (outcomes.take max_runs).countP (fun b => b))

/-- A majority-pass policy over the same bounded set of runs, for
comparison with the policy the code declares. -/
def majority_passes (max_runs : Nat) (outcomes : List Bool) : Bool :=
  decide (max_runs < 2 * (outcomes.take max_runs).countP (fun b => b))

/-- Claim C4 counterexample: under the decorator parameters of
TestReconnect (max_runs 3, min_passes 1) the run outcome sequence
fail, fail, pass makes the scenario pass as a whole, although only one of
the three runs passed, which a majority-pass policy would reject. -/
theorem test_reconnect_flaky_not_majority :
    flaky_passes test_reconnect_flaky_max_runs test_reconnect_flaky_min_passes
        [false, false, true] = true ∧
      majority_passes test_reconnect_flaky_max_runs [false, false, true] = false := by
  decide

/-- Claim C4 (amended): the reconnect scenario is retried end-to-end at
most 3 times, and it passes as a whole exactly when at least one of those
runs passes (min_passes is 1): an any-pass policy, not a unanimous-pass
and not a majority-pass policy. -/
theorem test_reconnect_retry_policy :
    test_reconnect_flaky_max_runs = 3 ∧ test_reconnect_flaky_min_passes = 1 ∧
    ∀ outcomes : List Bool,
      (flaky_passes test_reconnect_flaky_max_runs test_reconnect_flaky_min_passes
          outcomes = true ↔ ∃ b ∈ outcomes.take 3, b = true) := by
  refine ⟨rfl, rfl, ?_⟩
  intro outcomes
  rw [flaky_passes, decide_eq_true_iff]
  rw [show test_reconnect_flaky_min_passes = 1 from rfl]
  rw [show test_reconnect_flaky_max_runs = 3 from rfl]
  rw [Nat.one_le_iff_ne_zero, ← Nat.pos_iff_ne_zero, List.countP_pos_iff]

/-- Event alphabet of the TestTermination scenarios, in source order:
process start, the readiness wait, starting and synchronising with the
streaming eyeball thread, entering and leaving the within_grace_period
region, the three steps of terminate_by_signal (signal delivery, the
not-connected poll, waiting for process exit), and joining the thread. -/
inductive TermEvent where
  | startProcess : TermEvent
  | waitTunnelReady : TermEvent
  | startStreamThread : TermEvent
  | waitConnected : TermEvent
  | graceStart : TermEvent
  | sendSignal : TermEvent
  | checkNotConnected : TermEvent
  | procWait : TermEvent
  | graceEnd : TermEvent
  | joinThread : TermEvent
deriving DecidableEq, Repr

/-- Embedding of TestTermination.terminate_by_signal: send the signal, poll
that the tunnel is no longer connected, then wait for process exit. -/
def terminate_by_signal_trace : List TermEvent :=
  [TermEvent.sendSignal, TermEvent.checkNotConnected, TermEvent.procWait]

/-- Straight-line event trace of TestTermination.test_graceful_shutdown. -/
def test_graceful_shutdown_trace : List TermEvent :=
  [TermEvent.startProcess, TermEvent.waitTunnelReady, TermEvent.startStreamThread,
   TermEvent.waitConnected] ++ terminate_by_signal_trace ++ [TermEvent.joinThread]

/-- Straight-line event trace of
TestTermination.test_shutdown_once_no_connection; the within_grace_period
context measures its duration in a finally block, so the region closes
after the eyeball thread join. -/
def test_shutdown_once_no_connection_trace : List TermEvent :=
  [TermEvent.startProcess, TermEvent.waitTunnelReady, TermEvent.startStreamThread,
   TermEvent.waitConnected, TermEvent.graceStart] ++ terminate_by_signal_trace ++
  [TermEvent.joinThread, TermEvent.graceEnd]

/-- Straight-line event trace of TestTermination.test_no_connection_shutdown. -/
def test_no_connection_shutdown_trace : List TermEvent :=
  [TermEvent.startProcess, TermEvent.waitTunnelReady, TermEvent.graceStart] ++
  terminate_by_signal_trace ++ [TermEvent.graceEnd]

/-- Value of the TestTermination.grace_period class attribute, in seconds. -/
def grace_period : Nat := 5

/-- Embedding of the assertion of TestTermination.within_grace_period: the
observed duration must be strictly below the grace period. -/
def within_grace_period_check (duration : ℚ) : Bool :=
  decide (duration < (grace_period : ℚ))

/-- Claim C7: in every termination scenario of TestTermination, the
readiness wait completes (occurs in the trace) strictly before the
termination signal is sent. -/
theorem termination_signal_only_after_ready :
    (TermEvent.waitTunnelReady ∈ test_graceful_shutdown_trace ∧
      TermEvent.sendSignal ∈ test_graceful_shutdown_trace ∧
      test_graceful_shutdown_trace.indexOf TermEvent.waitTunnelReady <
        test_graceful_shutdown_trace.indexOf TermEvent.sendSignal) ∧
    (TermEvent.waitTunnelReady ∈ test_shutdown_once_no_connection_trace ∧
      TermEvent.sendSignal ∈ test_shutdown_once_no_connection_trace ∧
      test_shutdown_once_no_connection_trace.indexOf TermEvent.waitTunnelReady <
        test_shutdown_once_no_connection_trace.indexOf TermEvent.sendSignal) ∧
    (TermEvent.waitTunnelReady ∈ test_no_connection_shutdown_trace ∧
      TermEvent.sendSignal ∈ test_no_connection_shutdown_trace ∧
      test_no_connection_shutdown_trace.indexOf TermEvent.waitTunnelReady <
        test_no_connection_shutdown_trace.indexOf TermEvent.sendSignal) := by
  decide

/-- Claim C6: the grace period is 5 seconds and the within_grace_period
check passes exactly on durations strictly below it, hence fails exactly
when the observed duration is greater than or equal to the grace period;
in test_no_connection_shutdown the measured region encloses signal
delivery through full process exit. -/
theorem within_grace_period_strict :
    grace_period = 5 ∧
    (∀ d : ℚ, within_grace_period_check d = true ↔ d < (grace_period : ℚ)) ∧
    (∀ d : ℚ, within_grace_period_check d = false ↔ (grace_period : ℚ) ≤ d) ∧
    (test_no_connection_shutdown_trace.indexOf TermEvent.graceStart <
        test_no_connection_shutdown_trace.indexOf TermEvent.sendSignal ∧
      test_no_connection_shutdown_trace.indexOf TermEvent.procWait <
        test_no_connection_shutdown_trace.indexOf TermEvent.graceEnd) := by
  refine ⟨rfl, ?_, ?_, by decide⟩
  · intro d
    rw [within_grace_period_check, decide_eq_true_iff]
  · intro d
    rw [within_grace_period_check, decide_eq_false_iff_not, not_lt]

/-- Event alphabet of TestReconnect.assert_reconnect: a readiness wait
(with or without the tunnel url, and its minimum connection count), a
not-connected poll, a line written to the child process standard input,
and a sleep. -/
inductive ReconnectEvent where
  | waitReady : Bool → Nat → ReconnectEvent
  | checkNotConnected : ReconnectEvent
  | writeStdin : String → ReconnectEvent
  | sleepSecs : Nat → ReconnectEvent
deriving DecidableEq, Repr

/-- Value of the TestReconnect.default_ha_conns class attribute. -/
def default_ha_conns : Nat := 4

/-- Value of the TestReconnect.default_reconnect_secs class attribute. -/
def default_reconnect_secs : Nat := 15

/-- Line written by TestReconnect.send_reconnect to the child process
standard input. -/
def send_reconnect_line (secs : Nat) : String :=
  "reconnect " ++ toString secs ++ "s\n"

/-- Embedding of TestReconnect.assert_reconnect as the trace of readiness
checks, stdin writes and sleeps it performs: an initial end-to-end
readiness wait for all HA connections, then per repeat one reconnect
directive per HA connection, each followed by a readiness wait for the
remaining connections or, when none remain, by the not-connected poll, a
sleep of twice the reconnect duration, and a final end-to-end readiness
wait for all HA connections. -/
def assert_reconnect_trace (rep : Nat) : List ReconnectEvent :=
  ReconnectEvent.waitReady true default_ha_conns ::
    (List.range rep).flatMap (fun _ =>
      ((List.range default_ha_conns).flatMap (fun i =>
        ReconnectEvent.writeStdin (send_reconnect_line default_reconnect_secs) ::
          (if 0 < default_ha_conns - i - 1 then
            [ReconnectEvent.waitReady false (default_ha_conns - i - 1)]
          else [ReconnectEvent.checkNotConnected])))
      ++ [ReconnectEvent.sleepSecs (default_reconnect_secs * 2),
          ReconnectEvent.waitReady true default_ha_conns])

/-- Claim C8: one reconnect cycle from Ready(4) writes the exact line
reconnect 15s (newline terminated) once per active connection, checking
readiness down through 3, 2, 1 and then the not-connected state, sleeps
2 x 15 seconds, and finally waits for readiness of at least 4 connections
again. -/
theorem assert_reconnect_single_cycle :
    assert_reconnect_trace 1 =
      [ReconnectEvent.waitReady true 4,
       ReconnectEvent.writeStdin ("reconnect 15s\n"), ReconnectEvent.waitReady false 3,
       ReconnectEvent.writeStdin ("reconnect 15s\n"), ReconnectEvent.waitReady false 2,
       ReconnectEvent.writeStdin ("reconnect 15s\n"), ReconnectEvent.waitReady false 1,
       ReconnectEvent.writeStdin ("reconnect 15s\n"), ReconnectEvent.checkNotConnected,
       ReconnectEvent.sleepSecs (2 * 15), ReconnectEvent.waitReady true 4] := by
  rfl

/-- Outcome of launching the binary once: either the binary path was
invalid (FileNotFoundError from Popen) or the process ran to completion
with a return code. -/
inductive LaunchOutcome where
  | binaryMissing : LaunchOutcome
  | completed : Int → LaunchOutcome
deriving DecidableEq, Repr

/-- Exceptions a foreground run can surface to the caller. -/
inductive RunError where
  | fileNotFound : RunError
  | calledProcessError : Int → RunError
deriving DecidableEq, Repr

/-- Value returned by subprocess.run on completion. -/
structure CompletedProcess where
  returncode : Int
deriving DecidableEq, Repr

/-- Embedding of subprocess.run(cmd, check, capture_output): a missing
binary raises regardless of check; with check set a nonzero exit status
raises CalledProcessError; otherwise the completed process is returned
with its exit code. -/
def subprocess_run_checked (check : Bool) (o : LaunchOutcome) :
    Except RunError CompletedProcess :=
  match o with
  | LaunchOutcome.binaryMissing => Except.error RunError.fileNotFound
  | LaunchOutcome.completed rc =>
      if check = true ∧ rc ≠ 0 then Except.error (RunError.calledProcessError rc)
      else Except.ok ⟨rc⟩

/-- Embedding of the foreground (new_process false) branch of
util.start_cloudflared: a single subprocess.run call with
check set to expect_success; there is no retry around it. -/
def start_cloudflared_foreground (expect_success : Bool) (o : LaunchOutcome) :
    Except RunError CompletedProcess :=
  subprocess_run_checked expect_success o

/-- Claim C9: a foreground start with expect_success surfaces a missing
binary or a nonzero immediate exit to the caller as an exception from the
single (unretried) launch, while with expect_success false a completed
run is returned to the caller with its exit code instead of raising. -/
theorem start_cloudflared_foreground_launch_failures :
    (∀ es : Bool, start_cloudflared_foreground es LaunchOutcome.binaryMissing =
        Except.error RunError.fileNotFound) ∧
    (∀ rc : Int, (start_cloudflared_foreground true (LaunchOutcome.completed rc) =
        Except.error (RunError.calledProcessError rc) ↔ rc ≠ 0)) ∧
    (∀ rc : Int, start_cloudflared_foreground false (LaunchOutcome.completed rc) =
        Except.ok ⟨rc⟩) := by
  refine ⟨?_, ?_, ?_⟩
  · intro es; cases es <;> rfl
  · intro rc
    by_cases h : rc = 0 <;>
      simp [start_cloudflared_foreground, subprocess_run_checked, h]
  · intro rc
    simp [start_cloudflared_foreground, subprocess_run_checked]

/-- Size threshold, in bytes, after which the rolling logger rotates
(test_logging.rotate_after_size). -/
def rotate_after_size : Nat := 1000 * 1000

/-- Fixed name of the active log file (test_logging.default_log_file). -/
def default_log_file : String := "cloudflared.log"

/-- Substring every log scenario expects (test_logging.expect_message). -/
def expect_message : String := "Starting Hello"

/-- A line of a log file: its text together with the observable outcome of
json.loads on it: none when it does not parse as a JSON object, otherwise
the list of top-level keys of the parsed object. -/
structure LogLine where
  text : String
  jsonKeys : Option (List String)
deriving DecidableEq, Repr

/-- A file of the log directory as the checks observe it: its name in the
directory listing, its size as reported by os.stat, and its lines. -/
structure LogFile where
  name : String
  size : Nat
  lines : List LogLine
deriving DecidableEq, Repr

/-- Substring test backing the expect_message containment checks: the
needle occurs in the haystack exactly when splitting the haystack on the
needle yields more than one part. -/
def contains_substr (hay needle : String) : Bool :=
  decide (1 < (hay.splitOn needle).length)

/-- Embedding of test_logging.assert_json_log: read the first line of the
file, parse it as JSON, and assert the keys level, time and message are
present, in that order. -/
def assert_json_log (f : LogFile) : Except String Unit :=
  match f.lines.head? with
  | none => Except.error ("json decode error")
  | some l =>
      match l.jsonKeys with
      | none => Except.error ("json decode error")
      | some keys =>
          if "level" ∈ keys then
            if "time" ∈ keys then
              if "message" ∈ keys then Except.ok ()
              else Except.error ("message is not in j")
            else Except.error ("time is not in j")
          else Except.error ("level is not in j")

/-- Loop of test_logging.assert_log_in_file: scan at most the line budget,
stopping early at end of file, succeeding as soon as a line contains
expect_message and raising otherwise. -/
def assert_log_in_file_go : Nat → List LogLine → Except String Unit
  | 0, _ => Except.error ("log file does not contain expected message")
  | Nat.succ _, [] => Except.error ("log file does not contain expected message")
  | Nat.succ n, l :: rest =>
      if contains_substr l.text expect_message then Except.ok ()
      else assert_log_in_file_go n rest

/-- Embedding of test_logging.assert_log_in_file; the MAX_LOG_LINES budget
comes from the constants module and stays a parameter here. -/
def assert_log_in_file (max_log_lines : Nat) (f : LogFile) : Except String Unit :=
  assert_log_in_file_go max_log_lines f.lines

/-- Prop form of a passing assert_json_log: the first line parses as a
JSON object carrying level, time and message keys. -/
def json_log_ok (f : LogFile) : Prop :=
  ∃ l keys, f.lines.head? = some l ∧ l.jsonKeys = some keys ∧
    "level" ∈ keys ∧ "time" ∈ keys ∧ "message" ∈ keys

/-- Prop form of a passing assert_log_in_file: some line within the line
budget contains expect_message. -/
def contains_message_within (max_log_lines : Nat) (f : LogFile) : Prop :=
  ∃ l ∈ f.lines.take max_log_lines, contains_substr l.text expect_message = true

/-- Characterisation of assert_json_log. -/
theorem assert_json_log_ok_iff (f : LogFile) :
    assert_json_log f = Except.ok () ↔ json_log_ok f := by
  rw [assert_json_log, json_log_ok]
  cases hl : f.lines.head? with
  | none => simp
  | some l =>
      cases hk : l.jsonKeys with
      | none => simp [hk]
      | some keys =>
          by_cases h1 : ("level" : String) ∈ keys
          · by_cases h2 : ("time" : String) ∈ keys
            · by_cases h3 : ("message" : String) ∈ keys <;> simp [hk, h1, h2, h3]
            · simp [hk, h1, h2]
          · simp [hk, h1]

/-- Characterisation of the assert_log_in_file loop. -/
theorem assert_log_in_file_go_ok_iff :
    ∀ (n : Nat) (ls : List LogLine),
      assert_log_in_file_go n ls = Except.ok () ↔
        ∃ l ∈ ls.take n, contains_substr l.text expect_message = true := by
  intro n
  induction n with
  | zero => intro ls; simp [assert_log_in_file_go]
  | succ n ih =>
      intro ls
      cases ls with
      | nil => simp [assert_log_in_file_go]
      | cons l rest =>
          by_cases h : contains_substr l.text expect_message = true
          · simp [assert_log_in_file_go, h]
          · simp [assert_log_in_file_go, h, ih]

/-- Number of request batches test_logging.assert_log_to_dir sends before
giving up (max_batches). -/
def max_batches : Nat := 3

/-- Requests per batch in test_logging.assert_log_to_dir
(batch_requests). -/
def batch_requests : Nat := 1000

/-- One iteration body of test_logging.assert_log_to_dir after a batch of
requests: list the directory; when it does not hold exactly 2 files report
false (continue with the next batch); otherwise locate the current log
file by its fixed name (list.index raises when the name is absent), assert
its size is positive and its first line is a structured JSON record, then
take the other file as the rotated one, assert it exceeds the rotation
threshold and contains expect_message, re-check the current file as the
source does, and report true (return). -/
def assert_log_to_dir_batch (max_log_lines : Nat) (files : List LogFile) :
    Except String Bool :=
  if files.length = 2 then
    match files.findIdx? (fun f => f.name == default_log_file) with
    | none => Except.error ("ValueError: name is not in list")
    | some idx =>
        match files[idx]? with
        | none => Except.error ("IndexError")
        | some current =>
            if 0 < current.size then
              match assert_json_log current with
              | Except.error e => Except.error e
              | Except.ok _ =>
                  match files[if idx = 1 then 0 else 1]? with
                  | none => Except.error ("IndexError")
                  | some rotated =>
                      if rotate_after_size < rotated.size then
                        match assert_log_in_file max_log_lines rotated with
                        | Except.error e => Except.error e
                        | Except.ok _ =>
                            match assert_json_log current with
                            | Except.error e => Except.error e
                            | Except.ok _ => Except.ok true
                      else Except.error ("assert rotated size failed")
            else Except.error ("assert current size failed")
  else Except.ok false

/-- Loop of test_logging.assert_log_to_dir: run up to max_batches batches;
dir_after i is the directory listing observed after batch i.  When no
batch reaches the rotated state the descriptive exception is raised. -/
def assert_log_to_dir_go (max_log_lines : Nat) (dir_after : Nat → List LogFile) :
    Nat → Nat → Except String Unit
  | _, 0 => Except.error ("Log file is not rotated after sending the batches")
  | i, Nat.succ n =>
      match assert_log_to_dir_batch max_log_lines (dir_after i) with
      | Except.error e => Except.error e
      | Except.ok true => Except.ok ()
      | Except.ok false => assert_log_to_dir_go max_log_lines dir_after (i + 1) n

/-- Embedding of test_logging.assert_log_to_dir. -/
def assert_log_to_dir (max_log_lines : Nat) (dir_after : Nat → List LogFile) :
    Except String Unit :=
  assert_log_to_dir_go max_log_lines dir_after 0 max_batches

/-- The current/rotated file pair is in the state the rotation scenario
expects: growing current file with a structured first line, rotated file
past the threshold and containing expect_message within the line budget. -/
def rotation_pair_ok (max_log_lines : Nat) (current rotated : LogFile) : Prop :=
  0 < current.size ∧ json_log_ok current ∧
    rotate_after_size < rotated.size ∧ contains_message_within max_log_lines rotated

/-- The directory listing passes the rotated-state check of one batch:
exactly two files, the one named cloudflared.log current and the other
rotated. -/
def rotation_state_ok (max_log_lines : Nat) (files : List LogFile) : Prop :=
  ∃ a b, files = [a, b] ∧
    ((a.name = default_log_file ∧ rotation_pair_ok max_log_lines a b) ∨
     (a.name ≠ default_log_file ∧ b.name = default_log_file ∧
       rotation_pair_ok max_log_lines b a))

/-- Index search of the batch body computed on a two-element listing. -/
theorem findIdx_two_files (a b : LogFile) :
    List.findIdx? (fun f => f.name == default_log_file) [a, b] =
      (if a.name = default_log_file then some 0
       else if b.name = default_log_file then some 1 else none) := by
  by_cases ha : a.name = default_log_file <;>
    by_cases hb : b.name = default_log_file <;>
      simp [List.findIdx?_cons, ha, hb]

/-- On a two-element listing the rotated-state predicate reduces to the
naming case split the batch body performs. -/
theorem rotation_state_ok_two (mll : Nat) (a b : LogFile) :
    rotation_state_ok mll [a, b] ↔
      ((a.name = default_log_file ∧ rotation_pair_ok mll a b) ∨
       (a.name ≠ default_log_file ∧ b.name = default_log_file ∧
         rotation_pair_ok mll b a)) := by
  rw [rotation_state_ok]
  constructor
  · rintro ⟨x, y, hxy, hcase⟩
    injection hxy with h1 h2
    injection h2 with h3 _
    subst h1; subst h3
    exact hcase
  · intro h
    exact ⟨a, b, rfl, h⟩

/-- Master case analysis of the batch body on a two-element listing: it
either returns true with the listing in the rotated state, or raises with
the listing not in the rotated state; it never reports the continue
branch. -/
theorem assert_log_to_dir_batch_cases (mll : Nat) (a b : LogFile) :
    (rotation_state_ok mll [a, b] ∧
        assert_log_to_dir_batch mll [a, b] = Except.ok true) ∨
      (¬ rotation_state_ok mll [a, b] ∧
        ∃ e, assert_log_to_dir_batch mll [a, b] = Except.error e) := by
  by_cases ha : a.name = default_log_file
  · by_cases hsz : 0 < a.size
    · cases hj : assert_json_log a with
      | error e =>
          have hnj : ¬ json_log_ok a := by
            rw [← assert_json_log_ok_iff, hj]; simp
          refine Or.inr ⟨?_, e, ?_⟩
          · rw [rotation_state_ok_two]
            simp only [rotation_pair_ok]
            rintro (⟨_, _, hp, _, _⟩ | ⟨hna, _⟩)
            · exact hnj hp
            · exact hna ha
          · simp [assert_log_to_dir_batch, findIdx_two_files, ha, hsz, hj]
      | ok u =>
          cases u
          have hjo : json_log_ok a := (assert_json_log_ok_iff a).mp hj
          by_cases hrsz : rotate_after_size < b.size
          · cases hf : assert_log_in_file mll b with
            | error e =>
                have hfe : assert_log_in_file_go mll b.lines = Except.error e := hf
                have hnc : ¬ contains_message_within mll b := by
                  rw [contains_message_within, ← assert_log_in_file_go_ok_iff, hfe]
                  simp
                refine Or.inr ⟨?_, e, ?_⟩
                · rw [rotation_state_ok_two]
                  simp only [rotation_pair_ok]
                  rintro (⟨_, _, _, _, hp⟩ | ⟨hna, _⟩)
                  · exact hnc hp
                  · exact hna ha
                · simp [assert_log_to_dir_batch, findIdx_two_files, ha, hsz, hj,
                    hrsz, hf]
            | ok u2 =>
                cases u2
                have hfo : assert_log_in_file_go mll b.lines = Except.ok () := hf
                have hcm : contains_message_within mll b := by
                  rw [contains_message_within]
                  exact (assert_log_in_file_go_ok_iff mll b.lines).mp hfo
                refine Or.inl ⟨?_, ?_⟩
                · rw [rotation_state_ok_two, rotation_pair_ok]
                  exact Or.inl ⟨ha, hsz, hjo, hrsz, hcm⟩
                · simp [assert_log_to_dir_batch, findIdx_two_files, ha, hsz, hj,
                    hrsz, hf]
          · refine Or.inr ⟨?_, "assert rotated size failed", ?_⟩
            · rw [rotation_state_ok_two]
              simp only [rotation_pair_ok]
              rintro (⟨_, _, _, hp, _⟩ | ⟨hna, _⟩)
              · exact hrsz hp
              · exact hna ha
            · simp [assert_log_to_dir_batch, findIdx_two_files, ha, hsz, hj, hrsz]
    · refine Or.inr ⟨?_, "assert current size failed", ?_⟩
      · rw [rotation_state_ok_two]
        simp only [rotation_pair_ok]
        rintro (⟨_, hp, _, _, _⟩ | ⟨hna, _⟩)
        · exact hsz hp
        · exact hna ha
      · simp [assert_log_to_dir_batch, findIdx_two_files, ha, hsz]
  · by_cases hb : b.name = default_log_file
    · by_cases hsz : 0 < b.size
      · cases hj : assert_json_log b with
        | error e =>
            have hnj : ¬ json_log_ok b := by
              rw [← assert_json_log_ok_iff, hj]; simp
            refine Or.inr ⟨?_, e, ?_⟩
            · rw [rotation_state_ok_two]
              simp only [rotation_pair_ok]
              rintro (⟨hna, _⟩ | ⟨_, _, _, hp, _, _⟩)
              · exact ha hna
              · exact hnj hp
            · simp [assert_log_to_dir_batch, findIdx_two_files, ha, hb, hsz, hj]
        | ok u =>
            cases u
            have hjo : json_log_ok b := (assert_json_log_ok_iff b).mp hj
            by_cases hrsz : rotate_after_size < a.size
            · cases hf : assert_log_in_file mll a with
              | error e =>
                  have hfe : assert_log_in_file_go mll a.lines = Except.error e := hf
                  have hnc : ¬ contains_message_within mll a := by
                    rw [contains_message_within, ← assert_log_in_file_go_ok_iff, hfe]
                    simp
                  refine Or.inr ⟨?_, e, ?_⟩
                  · rw [rotation_state_ok_two]
                    simp only [rotation_pair_ok]
                    rintro (⟨hna, _⟩ | ⟨_, _, _, _, _, hp⟩)
                    · exact ha hna
                    · exact hnc hp
                  · simp [assert_log_to_dir_batch, findIdx_two_files, ha, hb, hsz,
                      hj, hrsz, hf]
              | ok u2 =>
                  cases u2
                  have hfo : assert_log_in_file_go mll a.lines = Except.ok () := hf
                  have hcm : contains_message_within mll a := by
                    rw [contains_message_within]
                    exact (assert_log_in_file_go_ok_iff mll a.lines).mp hfo
                  refine Or.inl ⟨?_, ?_⟩
                  · rw [rotation_state_ok_two]
                    refine Or.inr ⟨ha, hb, ?_⟩
                    rw [rotation_pair_ok]
                    exact ⟨hsz, hjo, hrsz, hcm⟩
                  · simp [assert_log_to_dir_batch, findIdx_two_files, ha, hb, hsz,
                      hj, hrsz, hf]
            · refine Or.inr ⟨?_, "assert rotated size failed", ?_⟩
              · rw [rotation_state_ok_two]
                simp only [rotation_pair_ok]
                rintro (⟨hna, _⟩ | ⟨_, _, _, _, hp, _⟩)
                · exact ha hna
                · exact hrsz hp
              · simp [assert_log_to_dir_batch, findIdx_two_files, ha, hb, hsz, hj,
                  hrsz]
      · refine Or.inr ⟨?_, "assert current size failed", ?_⟩
        · rw [rotation_state_ok_two]
          simp only [rotation_pair_ok]
          rintro (⟨hna, _⟩ | ⟨_, _, hp, _, _, _⟩)
          · exact ha hna
          · exact hsz hp
        · simp [assert_log_to_dir_batch, findIdx_two_files, ha, hb, hsz]
    · refine Or.inr ⟨?_, "ValueError: name is not in list", ?_⟩
      · rw [rotation_state_ok_two]
        rintro (⟨hna, _⟩ | ⟨_, hnb, _⟩)
        · exact ha hna
        · exact hb hnb
      · simp [assert_log_to_dir_batch, findIdx_two_files, ha, hb]

/-- The batch body reports the return branch exactly on a listing in the
rotated state. -/
theorem assert_log_to_dir_batch_true_iff (mll : Nat) (files : List LogFile) :
    assert_log_to_dir_batch mll files = Except.ok true ↔
      rotation_state_ok mll files := by
  by_cases hlen : files.length = 2
  · obtain ⟨a, b, rfl⟩ : ∃ a b, files = [a, b] := by
      cases files with
      | nil => simp at hlen
      | cons a t =>
          cases t with
          | nil => simp at hlen
          | cons b t2 =>
              cases t2 with
              | nil => exact ⟨a, b, rfl⟩
              | cons c t3 => simp at hlen
    rcases assert_log_to_dir_batch_cases mll a b with ⟨hr, ht⟩ | ⟨hnr, e, he⟩
    · rw [ht]; simp [hr]
    · rw [he]; simp [hnr]
  · rw [assert_log_to_dir_batch, if_neg hlen]
    constructor
    · intro h; exact absurd h (by simp)
    · intro hr
      rw [rotation_state_ok] at hr
      obtain ⟨x, y, hxy, _⟩ := hr
      exact absurd (by rw [hxy]; rfl) hlen

/-- The batch body reports the continue branch exactly on a listing
without exactly two files. -/
theorem assert_log_to_dir_batch_false_iff (mll : Nat) (files : List LogFile) :
    assert_log_to_dir_batch mll files = Except.ok false ↔
      files.length ≠ 2 := by
  by_cases hlen : files.length = 2
  · obtain ⟨a, b, rfl⟩ : ∃ a b, files = [a, b] := by
      cases files with
      | nil => simp at hlen
      | cons a t =>
          cases t with
          | nil => simp at hlen
          | cons b t2 =>
              cases t2 with
              | nil => exact ⟨a, b, rfl⟩
              | cons c t3 => simp at hlen
    constructor
    · intro h
      rcases assert_log_to_dir_batch_cases mll a b with ⟨_, ht⟩ | ⟨_, e, he⟩
      · rw [h] at ht; exact absurd ht (by simp)
      · rw [h] at he; exact absurd he (by simp)
    · intro h; exact absurd hlen h
  · rw [assert_log_to_dir_batch, if_neg hlen]
    simp [hlen]

/-- A listing in the rotated state has exactly two files. -/
theorem rotation_state_ok_length (mll : Nat) (fs : List LogFile)
    (hr : rotation_state_ok mll fs) : fs.length = 2 := by
  rw [rotation_state_ok] at hr
  obtain ⟨x, y, hxy, _⟩ := hr
  rw [hxy]; rfl

/-- Characterisation of the assert_log_to_dir loop: it succeeds exactly
when some batch within the budget sees the rotated state while every
earlier batch saw a listing without exactly two files. -/
theorem assert_log_to_dir_go_ok_iff (mll : Nat) (dir_after : Nat → List LogFile) :
    ∀ (n i : Nat),
      assert_log_to_dir_go mll dir_after i n = Except.ok () ↔
        ∃ k, k < n ∧ rotation_state_ok mll (dir_after (i + k)) ∧
          ∀ j, j < k → (dir_after (i + j)).length ≠ 2 := by
  intro n
  induction n with
  | zero => intro i; simp [assert_log_to_dir_go]
  | succ n ih =>
      intro i
      rcases hb : assert_log_to_dir_batch mll (dir_after i) with e | bv
      · have hlen : (dir_after i).length = 2 := by
          by_contra hc
          have hfalse : assert_log_to_dir_batch mll (dir_after i) = Except.ok false :=
            (assert_log_to_dir_batch_false_iff mll (dir_after i)).mpr hc
          rw [hb] at hfalse
          exact absurd hfalse (by simp)
        have hnr : ¬ rotation_state_ok mll (dir_after i) := by
          rw [← assert_log_to_dir_batch_true_iff, hb]
          simp
        simp only [assert_log_to_dir_go, hb]
        constructor
        · intro h; exact absurd h (by simp)
        · rintro ⟨k, hk, hrot, hprev⟩
          cases k with
          | zero =>
              rw [Nat.add_zero] at hrot
              exact absurd hrot hnr
          | succ m =>
              have h0 := hprev 0 (Nat.succ_pos m)
              rw [Nat.add_zero] at h0
              exact absurd hlen h0
      · cases bv with
        | true =>
            have hrot : rotation_state_ok mll (dir_after i) :=
              (assert_log_to_dir_batch_true_iff mll (dir_after i)).mp hb
            simp only [assert_log_to_dir_go, hb]
            constructor
            · intro _
              refine ⟨0, Nat.succ_pos n, ?_, ?_⟩
              · rw [Nat.add_zero]; exact hrot
              · intro j hj; omega
            · intro _; trivial
        | false =>
            have hlenne : (dir_after i).length ≠ 2 :=
              (assert_log_to_dir_batch_false_iff mll (dir_after i)).mp hb
            simp only [assert_log_to_dir_go, hb, ih]
            constructor
            · rintro ⟨k, hk, hrot, hprev⟩
              refine ⟨k + 1, by omega, ?_, ?_⟩
              · have harith : i + (k + 1) = i + 1 + k := by omega
                rw [harith]; exact hrot
              · intro j hj
                cases j with
                | zero => rw [Nat.add_zero]; exact hlenne
                | succ m =>
                    have harith : i + (m + 1) = i + 1 + m := by omega
                    rw [harith]
                    exact hprev m (by omega)
            · rintro ⟨k, hk, hrot, hprev⟩
              cases k with
              | zero =>
                  rw [Nat.add_zero] at hrot
                  exact absurd (rotation_state_ok_length mll (dir_after i) hrot) hlenne
              | succ m =>
                  refine ⟨m, by omega, ?_, ?_⟩
                  · have harith : i + 1 + m = i + (m + 1) := by omega
                    rw [harith]; exact hrot
                  · intro j hj
                    have harith : i + 1 + j = i + (j + 1) := by omega
                    rw [harith]
                    exact hprev (j + 1) (by omega)

/-- Claim C5: with the 1,000,000 byte rotation threshold, batches of 1,000
requests and a budget of 3 batches, the directory rotation check succeeds
exactly when some batch leaves exactly 2 files in the log directory, the
file named cloudflared.log nonempty with a structured JSON first line
(level, time and message fields) and the other file strictly above the
threshold and containing Starting Hello within the line budget, every
earlier batch having left a listing without exactly 2 files; in every
other case it raises an exception rather than silently passing. -/
theorem assert_log_to_dir_ok_iff (mll : Nat) (dir_after : Nat → List LogFile) :
    max_batches = 3 ∧ batch_requests = 1000 ∧ rotate_after_size = 1000 * 1000 ∧
    expect_message = "Starting Hello" ∧
    (assert_log_to_dir mll dir_after = Except.ok () ↔
      ∃ k, k < max_batches ∧ rotation_state_ok mll (dir_after k) ∧
        ∀ j, j < k → (dir_after j).length ≠ 2) := by
  refine ⟨rfl, rfl, rfl, rfl, ?_⟩
  rw [assert_log_to_dir]
  have h := assert_log_to_dir_go_ok_iff mll dir_after max_batches 0
  simpa using h

/-- Loop of util.send_requests: issue count requests in order through
send_request, counting a None result as an error and continuing; an
exception from send_request would propagate.  The pair returned is the
number of requests issued and the error count. -/
def send_requests_go (require_ok : Bool) (responses : Nat → GetResult) :
    Nat → Nat → Nat → Nat → Except String (Nat × Nat)
  | _, 0, issued, errors => Except.ok (issued, errors)
  | i, Nat.succ n, issued, errors =>
      match send_request require_ok (responses i) with
      | Except.error e => Except.error e
      | Except.ok o =>
          send_requests_go require_ok responses (i + 1) n (issued + 1)
            (errors + if o.isNone then 1 else 0)

/-- Embedding of util.send_requests; responses i is the response the i-th
request obtained. -/
def send_requests (count : Nat) (require_ok : Bool) (responses : Nat → GetResult) :
    Except String (Nat × Nat) :=
  send_requests_go require_ok responses 0 count 0 0

/-- Evaluation of the send_requests loop over delivered responses with
require_ok disabled: every request is issued and exactly the non-200
responses are counted as errors. -/
theorem send_requests_go_counts (statuses rcs : Nat → Nat) :
    ∀ (n i a b : Nat),
      send_requests_go false (fun k => GetResult.got ⟨statuses k, rcs k⟩) i n a b =
        Except.ok (a + n,
          b + ((List.range' i n).filter (fun j => decide (statuses j ≠ 200))).length) := by
  intro n
  induction n with
  | zero => intro i a b; simp [send_requests_go]
  | succ n ih =>
      intro i a b
      by_cases h : statuses i = 200
      · have hsr : send_request false (GetResult.got ⟨statuses i, rcs i⟩) =
            Except.ok (some ⟨statuses i, rcs i⟩) := by
          simp [send_request, h]
        simp only [send_requests_go, hsr, Option.isNone_some, if_false, ih]
        rw [List.range'_succ]
        simp [h]
        omega
      · have hsr : send_request false (GetResult.got ⟨statuses i, rcs i⟩) =
            Except.ok none := by
          simp [send_request, h]
        simp only [send_requests_go, hsr, Option.isNone_none, if_true, ih]
        rw [List.range'_succ]
        simp [h]
        omega

/-- Claim C10: with require_ok disabled a delivered response whose status
is not 200 makes send_request return None instead of raising, and
consequently send_requests issues all count requests, counting exactly the
non-200 responses as errors without aborting the batch. -/
theorem send_requests_all_issued (count : Nat) (statuses rcs : Nat → Nat) :
    (∀ k, ∃ o, send_request false (GetResult.got ⟨statuses k, rcs k⟩) =
        Except.ok o ∧ (o = none ↔ statuses k ≠ 200)) ∧
    send_requests count false (fun k => GetResult.got ⟨statuses k, rcs k⟩) =
      Except.ok (count,
        ((List.range count).filter (fun j => decide (statuses j ≠ 200))).length) := by
  constructor
  · intro k
    by_cases h : statuses k = 200
    · refine ⟨some ⟨statuses k, rcs k⟩, ?_, ?_⟩
      · simp [send_request, h]
      · simp [h]
    · refine ⟨none, ?_, ?_⟩
      · simp [send_request, h]
      · simp [h]
  · rw [send_requests, send_requests_go_counts statuses rcs count 0 0 0]
    rw [List.range_eq_range']
    simp
